import Mathlib

/-!
Verification of the WebSocket Hub of this repository
(backend/websocket/hub.js and backend/websocket/messageTypes.js).

A shallow embedding of the Hub: the dual-keyed message-type table, the
per-connection context, the module-level `connectedServers` map, the
`SERVER_CONNECT` / `CLIENT_CONNECT` handlers, the close handler and the
relay (`sendMessageToServer`).  JavaScript strings that may be `undefined`
are `Option String`; a JS value used as an object key or as a frame `type`
is `JsVal` (number or string).  The calls `ws.send` and `ws.close` become
explicit effects; `logger` calls are pure observability and are not
modelled.  Theorems checking the specification follow the definitions.
-/

namespace Hub

/-- A JavaScript value appearing as a frame `type` or in a frame payload:
either a number or a string (the only shapes the hub produces or reads). -/
inductive JsVal where
  | num (n : Nat)
  | str (s : String)
deriving DecidableEq, Repr

/-- Property-key coercion: a JS object key is the string form of the value,
so `MessageTypes[1]` and `MessageTypes["1"]` name the same property. -/
def jsKeyString : JsVal → String
  | .num n => toString n
  | .str s => s

/-- The `MessageTypes` object of `messageTypes.js` after the loop
`for (const [key, value] of Object.entries(MessageTypes)) MessageTypes[value] = key`
has added the reverse entries: name keys map to their numeric ids and the
numeric keys added by the loop map back to the names. -/
def messageTypesLookup (v : JsVal) : Option JsVal :=
  let k := jsKeyString v
  if k = "SERVER_CONNECT" then some (.num 1)
  else if k = "CLIENT_CONNECT" then some (.num 2)
  else if k = "SERVER_CONNECT_RESULT" then some (.num 3)
  else if k = "USER_CONNECTED" then some (.num 4)
  else if k = "1" then some (.str "SERVER_CONNECT")
  else if k = "2" then some (.str "CLIENT_CONNECT")
  else if k = "3" then some (.str "SERVER_CONNECT_RESULT")
  else if k = "4" then some (.str "USER_CONNECTED")
  else none

/-- An `Option String` is JS-falsy when it is `undefined` or the empty
string (`!token` / `!expected` in `isValidToken`, `data?.name ||` fallback). -/
def jsFalsyOptStr : Option String → Bool
  | none => true
  | some s => s = ""

/-- JS or-else (`a || b`) on an optional string against a string default. -/
def jsOrStr (v : Option String) (dflt : String) : String :=
  match v with
  | none => dflt
  | some s => if s = "" then dflt else s

/-- Render an optional string the way JS template interpolation does
(a missing value prints as the text `undefined`). -/
def optStrToJs : Option String → String
  | none => "undefined"
  | some s => s

/-- UTF-8 bytes of one character, as `Buffer.from` encodes it. -/
def charUtf8 (c : Char) : List Nat :=
  let n := c.toNat
  if n < 0x80 then [n]
  else if n < 0x800 then [0xC0 + n / 0x40, 0x80 + n % 0x40]
  else if n < 0x10000 then
    [0xE0 + n / 0x1000, 0x80 + (n / 0x40) % 0x40, 0x80 + n % 0x40]
  else
    [0xF0 + n / 0x40000, 0x80 + (n / 0x1000) % 0x40,
     0x80 + (n / 0x40) % 0x40, 0x80 + n % 0x40]

/-- The byte content of `Buffer.from(s)`: UTF-8 bytes of the string. -/
def strBytes (s : String) : List Nat :=
  (s.data.map charUtf8).flatten

/-- Model of `crypto.timingSafeEqual` on two equal-length buffers: content
equality.  (The source only ever calls it after its own length guard.) -/
def timingSafeEqual (a b : List Nat) : Bool :=
  a = b

/-- Outcome of `isValidToken` plus whether `crypto.timingSafeEqual` was
actually invoked on the two buffers (the trace the security claim needs). -/
structure TokenCheck where
  result : Bool
  comparatorCalled : Bool
deriving DecidableEq, Repr

/-- The function `isValidToken(token)` of hub.js, with `expected` standing for
`process.env.GAME_SERVER_TOKEN`: falsy token or secret fails at once;
then a buffer length mismatch fails before the comparator; only
equal-length buffers reach `crypto.timingSafeEqual`. -/
def isValidTokenTrace (token expected : Option String) : TokenCheck :=
  if jsFalsyOptStr token || jsFalsyOptStr expected then ⟨false, false⟩
  else
    let tokenBuffer := strBytes (token.getD "")
    let expectedBuffer := strBytes (expected.getD "")
    if tokenBuffer.length ≠ expectedBuffer.length then ⟨false, false⟩
    else ⟨timingSafeEqual tokenBuffer expectedBuffer, true⟩

/-- The boolean `isValidToken` returns. -/
def isValidToken (token expected : Option String) : Bool :=
  (isValidTokenTrace token expected).result

/-- The module-level `connectedServers` map: server name → the `ws`
reference (a connection identifier), in insertion order. -/
abbrev Registry := List (String × Nat)

/-- Lookup, `connectedServers.get(name)`. -/
def regGet : Registry → String → Option Nat
  | [], _ => none
  | (k, v) :: rest, n => if k = n then some v else regGet rest n

/-- Upsert, `connectedServers.set(name, ws)`: replace in place, else append. -/
def regSet : Registry → String → Nat → Registry
  | [], n, w => [(n, w)]
  | (k, v) :: rest, n, w =>
      if k = n then (k, w) :: rest else (k, v) :: regSet rest n w

/-- Removal, `connectedServers.delete(name)`. -/
def regDelete : Registry → String → Registry
  | [], _ => []
  | (k, v) :: rest, n =>
      if k = n then regDelete rest n else (k, v) :: regDelete rest n

/-- Key snapshot, `Array.from(connectedServers.keys())`. -/
def regKeys (r : Registry) : List String :=
  r.map (·.1)

/-- The function `getConnectedServerNames()` of hub.js. -/
def getConnectedServerNames (r : Registry) : List String :=
  regKeys r

/-- The per-connection `context` object. -/
structure Context where
  serverName : String
  authenticated : Bool
deriving DecidableEq, Repr

/-- The `context` object as initialised when a connection is accepted. -/
def initContext : Context :=
  { serverName := "UnknownServer", authenticated := false }

/-- An outbound frame as `JSON.stringify` serialises it: the `type` value,
the key/value pairs of the `data` object, and the top-level `success`
field when the object literal carries one. -/
structure OutFrame where
  type : JsVal
  dataFields : List (String × JsVal)
  success : Option Bool
deriving DecidableEq, Repr

/-- An observable action of a handler on its connection. -/
inductive Effect where
  | send (wsId : Nat) (frame : OutFrame)
  | close (wsId : Nat)
deriving DecidableEq, Repr

/-- The `data` object of an inbound frame, restricted to the string fields
the hub reads (`data?.name`, `data?.token`, `data?.serverName`); a field
the sender omitted is `none`. -/
structure InData where
  name : Option String := none
  token : Option String := none
  serverName : Option String := none
deriving DecidableEq, Repr

/-- An inbound envelope `{type, data}` after `JSON.parse`. -/
structure InFrame where
  type : JsVal
  data : Option InData
deriving DecidableEq, Repr

/-- The function `handleServerConnect(ws, data, context)`: resolve the name with the
`||` fallback, validate the token against the environment secret; on
failure send a `SERVER_CONNECT_RESULT` envelope (top-level `success:false`)
and close, leaving context and registry untouched; on success mark the
context authenticated under the name, upsert the registry and send the
success envelope (top-level `success:true`, `server_id` inside `data`). -/
def handleServerConnect (env : Option String) (wsId : Nat)
    (data : Option InData) (ctx : Context) (reg : Registry) :
    Context × Registry × List Effect :=
  let serverName := jsOrStr (data.bind (·.name)) ctx.serverName
  let token := data.bind (·.token)
  if ¬ isValidToken token env then
    (ctx, reg,
      [Effect.send wsId
        { type := .str "SERVER_CONNECT_RESULT"
          dataFields :=
            [("message", .str ("Autenticación fallida para " ++ serverName))]
          success := some false },
       Effect.close wsId])
  else
    ({ serverName := serverName, authenticated := true },
     regSet reg serverName wsId,
     [Effect.send wsId
        { type := .str "SERVER_CONNECT_RESULT"
          dataFields :=
            [("message", .str ("Servidor " ++ serverName ++ " registrado correctamente")),
             ("server_id", .str serverName)]
          success := some true }])

/-- Lookup with a possibly-undefined key: `connectedServers.get(serverName)`
where `serverName` is `data?.serverName` (a JS `Map` has no entry under the
key `undefined`, so the result is `undefined`). -/
def regGetOpt (reg : Registry) (k : Option String) : Option Nat :=
  match k with
  | some n => regGet reg n
  | none => none

/-- The function `handleClientConnect(ws, data)`: look the requested name up in the
registry and answer with a frame whose `type` is `MessageTypes[2]`
(the string `"CLIENT_CONNECT"`); `data` is a token object on a hit and
`{message}` on a miss; the object literal has no `success` field and the
connection is not closed. -/
def handleClientConnect (wsId : Nat) (data : Option InData) (reg : Registry) :
    List Effect :=
  let serverName := data.bind (·.serverName)
  let target := regGetOpt reg serverName
  [Effect.send wsId
    { type := .str "CLIENT_CONNECT"
      dataFields :=
        if target.isSome then [("token", .str "token")]
        else [("message", .str ("Servidor " ++ optStrToJs serverName ++ " no encontrado"))]
      success := none }]

/-- Which `case` of the `switch (MessageTypes[type])` a frame type reaches:
only the string results `"SERVER_CONNECT"` and `"CLIENT_CONNECT"` match a
case; a numeric result (what a name alias resolves to) or a failed lookup
falls to `default`. -/
inductive DispatchTarget where
  | serverConnect
  | clientConnect
  | unhandled
deriving DecidableEq, Repr

/-- The dispatch decision of the message-event switch. -/
def dispatchTarget (t : JsVal) : DispatchTarget :=
  match messageTypesLookup t with
  | some (.str "SERVER_CONNECT") => .serverConnect
  | some (.str "CLIENT_CONNECT") => .clientConnect
  | _ => .unhandled

/-- The message-event handler of a connection, on one parsed frame:
dispatch by the switch; an unauthenticated `CLIENT_CONNECT` and the
`default` branch only log, leaving context, registry and connection
untouched. -/
def onMessage (env : Option String) (wsId : Nat) (frame : InFrame)
    (ctx : Context) (reg : Registry) : Context × Registry × List Effect :=
  match dispatchTarget frame.type with
  | .serverConnect => handleServerConnect env wsId frame.data ctx reg
  | .clientConnect =>
      if ¬ ctx.authenticated then (ctx, reg, [])
      else (ctx, reg, handleClientConnect wsId frame.data reg)
  | .unhandled => (ctx, reg, [])

/-- The close-event handler of a connection, which runs
`connectedServers.delete(context.serverName)`: unconditional removal
under the current name held by the context. -/
def onClose (ctx : Context) (reg : Registry) : Registry :=
  regDelete reg ctx.serverName

/-- The JS return value of `sendMessageToServer` (the spec's `relay`
result type, used to state what the source would have to return). -/
inductive RelayResult where
  | delivered
  | notFound
deriving DecidableEq, Repr

/-- The function `sendMessageToServer(name, msg)`: on a registry hit, stringify and send
`msg` (an envelope such as `{type:"USER_CONNECTED", data:{...}}`, as the
login flow passes) on the registered connection; on a miss, log only.
Neither branch has a `return` statement, so the JS return value is
`undefined` — modelled as the constant `none : Option RelayResult`.
No exception path exists. -/
def sendMessageToServer (reg : Registry) (name : String) (msg : OutFrame) :
    List Effect × Option RelayResult :=
  match regGet reg name with
  | some ws => ([Effect.send ws msg], none)
  | none => ([], none)

/-- The message loop of one session over a list of parsed inbound frames,
threading its context and the shared registry, collecting effects. -/
def runSession (env : Option String) (wsId : Nat) :
    List InFrame → Context → Registry → Context × Registry × List Effect
  | [], ctx, reg => (ctx, reg, [])
  | f :: rest, ctx, reg =>
      let step := onMessage env wsId f ctx reg
      let next := runSession env wsId rest step.1 step.2.1
      (next.1, next.2.1, step.2.2 ++ next.2.2)

/-! Helper lemmas about the registry operations. -/

theorem regGet_regSet_self (r : Registry) (n : String) (w : Nat) :
    regGet (regSet r n w) n = some w := by
  induction r with
  | nil => simp [regSet, regGet]
  | cons p rest ih =>
      obtain ⟨k, v⟩ := p
      by_cases h : k = n
      · simp [regSet, regGet, h]
      · simp [regSet, regGet, h, ih]

theorem mem_regKeys_regSet_self (r : Registry) (n : String) (w : Nat) :
    n ∈ regKeys (regSet r n w) := by
  induction r with
  | nil => simp [regSet, regKeys]
  | cons p rest ih =>
      obtain ⟨k, v⟩ := p
      by_cases h : k = n
      · simp [regSet, regKeys, h]
      · simp only [regSet, regKeys, if_neg h, List.map_cons, List.mem_cons]
        exact Or.inr ih

theorem regKeys_cons (k : String) (v : Nat) (rest : Registry) :
    regKeys ((k, v) :: rest) = k :: regKeys rest :=
  rfl

theorem mem_regKeys_regDelete (r : Registry) (n m : String) :
    m ∈ regKeys (regDelete r n) ↔ m ∈ regKeys r ∧ m ≠ n := by
  induction r with
  | nil => simp [regDelete, regKeys]
  | cons p rest ih =>
      obtain ⟨k, v⟩ := p
      by_cases h : k = n
      · subst h
        have hd : regDelete ((k, v) :: rest) k = regDelete rest k := by
          simp [regDelete]
        rw [hd, ih, regKeys_cons]
        simp only [List.mem_cons]
        tauto
      · have hd : regDelete ((k, v) :: rest) n = (k, v) :: regDelete rest n := by
          simp [regDelete, h]
        rw [hd, regKeys_cons, regKeys_cons]
        simp only [List.mem_cons, ih]
        constructor
        · rintro (rfl | ⟨hm, hn⟩)
          · exact ⟨Or.inl rfl, h⟩
          · exact ⟨Or.inr hm, hn⟩
        · rintro ⟨rfl | hm, hn⟩
          · exact Or.inl rfl
          · exact Or.inr ⟨hm, hn⟩

theorem regDelete_length_le (r : Registry) (n : String) :
    (regDelete r n).length ≤ r.length := by
  induction r with
  | nil => simp [regDelete]
  | cons p rest ih =>
      obtain ⟨k, v⟩ := p
      by_cases h : k = n
      · simp only [regDelete, if_pos h, List.length_cons]
        exact Nat.le_succ_of_le ih
      · simp only [regDelete, if_neg h, List.length_cons]
        exact Nat.succ_le_succ ih

theorem regDelete_length_lt (r : Registry) (n : String) (h : n ∈ regKeys r) :
    (regDelete r n).length < r.length := by
  induction r with
  | nil => simp [regKeys] at h
  | cons p rest ih =>
      obtain ⟨k, v⟩ := p
      by_cases hk : k = n
      · simp only [regDelete, if_pos hk, List.length_cons]
        exact Nat.lt_succ_of_le (regDelete_length_le rest n)
      · simp only [regKeys, List.map_cons, List.mem_cons] at h
        rcases h with h | h
        · exact absurd h.symm hk
        · simp only [regDelete, if_neg hk, List.length_cons]
          exact Nat.succ_lt_succ (ih h)

theorem regDelete_eq_self_iff (r : Registry) (n : String) :
    regDelete r n = r ↔ n ∉ regKeys r := by
  constructor
  · intro heq hmem
    have := regDelete_length_lt r n hmem
    rw [heq] at this
    exact Nat.lt_irrefl _ this
  · intro hmem
    induction r with
    | nil => simp [regDelete]
    | cons p rest ih =>
        obtain ⟨k, v⟩ := p
        simp only [regKeys, List.map_cons, List.mem_cons, not_or] at hmem
        have hk : k ≠ n := fun h => hmem.1 h.symm
        simp only [regDelete, if_neg hk, List.cons_inj_right]
        exact ih hmem.2

/-! Helper lemmas about one session. -/

theorem onMessage_context_cases (env : Option String) (wsId : Nat)
    (frame : InFrame) (ctx : Context) (reg : Registry) :
    (onMessage env wsId frame ctx reg).1 = ctx ∨
      (onMessage env wsId frame ctx reg).1.authenticated = true := by
  unfold onMessage
  cases dispatchTarget frame.type with
  | serverConnect =>
      unfold handleServerConnect
      by_cases h : isValidToken ((frame.data).bind (·.token)) env
      · right; simp [h]
      · left; simp [h]
  | clientConnect =>
      by_cases h : ctx.authenticated <;> simp [h]
  | unhandled => left; rfl

theorem onMessage_authenticated_mono (env : Option String) (wsId : Nat)
    (frame : InFrame) (ctx : Context) (reg : Registry)
    (h : ctx.authenticated = true) :
    (onMessage env wsId frame ctx reg).1.authenticated = true := by
  rcases onMessage_context_cases env wsId frame ctx reg with hc | hc
  · rw [hc]; exact h
  · exact hc

theorem runSession_authenticated_mono (env : Option String) (wsId : Nat)
    (frames : List InFrame) (ctx : Context) (reg : Registry)
    (h : ctx.authenticated = true) :
    (runSession env wsId frames ctx reg).1.authenticated = true := by
  induction frames generalizing ctx reg with
  | nil => exact h
  | cons f rest ih =>
      simp only [runSession]
      exact ih _ _ (onMessage_authenticated_mono env wsId f ctx reg h)

theorem runSession_unauth_context (env : Option String) (wsId : Nat)
    (frames : List InFrame) (ctx : Context) (reg : Registry)
    (h : (runSession env wsId frames ctx reg).1.authenticated = false) :
    (runSession env wsId frames ctx reg).1 = ctx := by
  induction frames generalizing ctx reg with
  | nil => rfl
  | cons f rest ih =>
      simp only [runSession] at h ⊢
      rcases onMessage_context_cases env wsId f ctx reg with hc | hc
      · rw [hc] at h ⊢
        exact ih _ _ h
      · have := runSession_authenticated_mono env wsId rest
          (onMessage env wsId f ctx reg).1 (onMessage env wsId f ctx reg).2.1 hc
        rw [this] at h
        cases h

/-! Theorems settling the claims. -/

/-- C6: token validation reaches `crypto.timingSafeEqual` only on buffers of
equal byte length, and when it does the verdict of the comparator is the
result; buffers of unequal byte length are an immediate mismatch with the
comparator never invoked. -/
theorem C6_constant_time_guard (token expected : Option String) :
    ((isValidTokenTrace token expected).comparatorCalled = true →
        (strBytes (token.getD "")).length = (strBytes (expected.getD "")).length ∧
        (isValidTokenTrace token expected).result
          = timingSafeEqual (strBytes (token.getD "")) (strBytes (expected.getD ""))) ∧
    ((strBytes (token.getD "")).length ≠ (strBytes (expected.getD "")).length →
        isValidTokenTrace token expected = ⟨false, false⟩) := by
  simp only [isValidTokenTrace]
  split_ifs with h1 h2
  · refine ⟨fun hc => ?_, fun _ => rfl⟩
    simp at hc
  · refine ⟨fun hc => ?_, fun _ => rfl⟩
    simp at hc
  · refine ⟨fun _ => ⟨not_ne_iff.mp h2, rfl⟩, fun hlen => absurd hlen h2⟩

/-- C9: an unset or empty `GAME_SERVER_TOKEN`, or a missing or empty supplied
token, makes `isValidToken` return false, and with the secret unconfigured a
`SERVER_CONNECT` leaves both the context and the registry unchanged, so no
server can register. -/
theorem C9_no_empty_secret_bypass (token env : Option String) (wsId : Nat)
    (data : Option InData) (ctx : Context) (reg : Registry) :
    ((jsFalsyOptStr env = true ∨ jsFalsyOptStr token = true) →
        isValidToken token env = false) ∧
    (jsFalsyOptStr env = true →
        (handleServerConnect env wsId data ctx reg).1 = ctx ∧
        (handleServerConnect env wsId data ctx reg).2.1 = reg) := by
  have hval : ∀ t : Option String,
      (jsFalsyOptStr env = true ∨ jsFalsyOptStr t = true) →
      isValidToken t env = false := by
    intro t ht
    unfold isValidToken isValidTokenTrace
    rcases ht with h | h <;> simp [h]
  refine ⟨hval token, fun henv => ?_⟩
  unfold handleServerConnect
  simp [hval (data.bind (·.token)) (Or.inl henv)]

/-- C2 counterexample: the numeric id 1 dispatches to the `SERVER_CONNECT`
handler, while the string alias resolves in the table to the numeric id 1,
which no switch case matches, so the frame is ignored — the two aliases do
not dispatch to the same handler. -/
theorem C2_string_alias_not_dispatched :
    dispatchTarget (JsVal.num 1) = DispatchTarget.serverConnect ∧
    messageTypesLookup (JsVal.str "SERVER_CONNECT") = some (JsVal.num 1) ∧
    dispatchTarget (JsVal.str "SERVER_CONNECT") = DispatchTarget.unhandled := by
  decide

/-- C2 amended: the lookup table resolves both aliases of each kind, but the
switch only matches the two string results, so only the numeric ids 1 and 2
dispatch to a handler; the four string-name aliases resolve to numeric ids
and fall to the default branch, as do the ids 3 and 4 (which have no case)
and every type value the table does not know. -/
theorem C2_dispatch_only_numeric :
    (dispatchTarget (JsVal.num 1) = DispatchTarget.serverConnect ∧
     dispatchTarget (JsVal.num 2) = DispatchTarget.clientConnect ∧
     dispatchTarget (JsVal.num 3) = DispatchTarget.unhandled ∧
     dispatchTarget (JsVal.num 4) = DispatchTarget.unhandled) ∧
    (messageTypesLookup (JsVal.str "SERVER_CONNECT") = some (JsVal.num 1) ∧
     messageTypesLookup (JsVal.str "CLIENT_CONNECT") = some (JsVal.num 2) ∧
     messageTypesLookup (JsVal.str "SERVER_CONNECT_RESULT") = some (JsVal.num 3) ∧
     messageTypesLookup (JsVal.str "USER_CONNECTED") = some (JsVal.num 4)) ∧
    (dispatchTarget (JsVal.str "SERVER_CONNECT") = DispatchTarget.unhandled ∧
     dispatchTarget (JsVal.str "CLIENT_CONNECT") = DispatchTarget.unhandled ∧
     dispatchTarget (JsVal.str "SERVER_CONNECT_RESULT") = DispatchTarget.unhandled ∧
     dispatchTarget (JsVal.str "USER_CONNECTED") = DispatchTarget.unhandled) ∧
    (∀ t : JsVal, messageTypesLookup t = none →
        dispatchTarget t = DispatchTarget.unhandled) := by
  refine ⟨by decide, by decide, by decide, fun t h => ?_⟩
  unfold dispatchTarget
  rw [h]

/-- C1 counterexample: session 1 registers as Zone1, session 2 then registers
as Zone1 (becoming the current occupant), and the close of session 1 still
removes the entry — the registry is left with no connected names, so
`connectedNames()` does not contain Zone1. -/
theorem C1_close_evicts_newer_registration :
    getConnectedServerNames
      (onClose
        (handleServerConnect (some "s") 1
          (some { name := some "Zone1", token := some "s" }) initContext []).1
        (handleServerConnect (some "s") 2
          (some { name := some "Zone1", token := some "s" }) initContext
          (handleServerConnect (some "s") 1
            (some { name := some "Zone1", token := some "s" }) initContext []).2.1).2.1)
      = [] := by
  decide

/-- C1 amended: the close handler removes the registry entry under the
closing session's last-known name unconditionally — there is no
compare-and-remove — so after the close that name is gone from the
connected names even when a newer session currently occupies it; entries
under other names are untouched. -/
theorem C1_close_removes_unconditionally (ctx : Context) (reg : Registry) :
    ctx.serverName ∉ regKeys (onClose ctx reg) ∧
    ∀ n : String, n ∈ regKeys (onClose ctx reg) ↔ n ∈ regKeys reg ∧ n ≠ ctx.serverName := by
  constructor
  · intro hmem
    rcases (mem_regKeys_regDelete reg ctx.serverName ctx.serverName).mp hmem with ⟨_, hne⟩
    exact hne rfl
  · intro n
    exact mem_regKeys_regDelete reg ctx.serverName n

/-- C3 counterexample: with Zone1 registered the relay returns `undefined`
(there is no return statement), not a `Delivered` result, and on a miss it
also returns `undefined`, not a `NotFound` result. -/
theorem C3_relay_returns_undefined :
    (sendMessageToServer [("Zone1", 1)] "Zone1"
        { type := JsVal.str "USER_CONNECTED",
          dataFields := [("username", JsVal.str "bob"), ("token", JsVal.str "t")],
          success := none }).2 = none ∧
    (sendMessageToServer [] "Unknown"
        { type := JsVal.str "USER_CONNECTED",
          dataFields := [("username", JsVal.str "bob"), ("token", JsVal.str "t")],
          success := none }).2 = none := by
  decide

/-- C3 amended: `sendMessageToServer` sends the message on the registered
transport exactly when the name is present and performs no send when it is
absent, never raising; in both cases the call returns `undefined` (no
`Delivered` or `NotFound` result value) — a miss is only logged. -/
theorem C3_relay_behavior (reg : Registry) (name : String) (msg : OutFrame) :
    (regGet reg name = none → sendMessageToServer reg name msg = ([], none)) ∧
    (∀ ws : Nat, regGet reg name = some ws →
        sendMessageToServer reg name msg = ([Effect.send ws msg], none)) := by
  constructor
  · intro h
    unfold sendMessageToServer
    rw [h]
  · intro ws h
    unfold sendMessageToServer
    rw [h]

/-- C4: a `SERVER_CONNECT` carrying a name and a token that validates against
the configured secret authenticates the session under that name, upserts the
registry entry for the name to this connection (overwriting any prior
occupant), and the connected names subsequently include the name. -/
theorem C4_server_connect_success (env : Option String) (wsId : Nat)
    (name token : String) (ctx : Context) (reg : Registry)
    (hv : isValidToken (some token) env = true) (hn : name ≠ "") :
    (handleServerConnect env wsId (some { name := some name, token := some token }) ctx reg).1
        = { serverName := name, authenticated := true } ∧
    regGet (handleServerConnect env wsId (some { name := some name, token := some token }) ctx reg).2.1 name
        = some wsId ∧
    name ∈ getConnectedServerNames
        (handleServerConnect env wsId (some { name := some name, token := some token }) ctx reg).2.1 := by
  unfold handleServerConnect
  simp only [Option.some_bind, hv, not_true_eq_false, if_false, jsOrStr, if_neg hn]
  exact ⟨by trivial, regGet_regSet_self reg name wsId, mem_regKeys_regSet_self reg name wsId⟩

/-- C4 witness: a concrete valid registration. -/
theorem C4_server_connect_success_witness :
    (handleServerConnect (some "s") 1 (some { name := some "Zone1", token := some "s" }) initContext []).1
        = { serverName := "Zone1", authenticated := true } ∧
    regGet (handleServerConnect (some "s") 1 (some { name := some "Zone1", token := some "s" }) initContext []).2.1 "Zone1"
        = some 1 ∧
    "Zone1" ∈ getConnectedServerNames
        (handleServerConnect (some "s") 1 (some { name := some "Zone1", token := some "s" }) initContext []).2.1 :=
  C4_server_connect_success (some "s") 1 "Zone1" "s" initContext [] (by decide) (by decide)

/-- C5: a `SERVER_CONNECT` whose token does not validate sends one
`SERVER_CONNECT_RESULT` failure envelope and then closes the connection,
leaving the context and registry exactly unchanged; a name absent from the
connected names before the attempt is still absent after it. -/
theorem C5_auth_failure (env : Option String) (wsId : Nat)
    (data : Option InData) (ctx : Context) (reg : Registry)
    (hv : isValidToken (data.bind (·.token)) env = false) :
    handleServerConnect env wsId data ctx reg =
      (ctx, reg,
        [Effect.send wsId
          { type := JsVal.str "SERVER_CONNECT_RESULT",
            dataFields := [("message", JsVal.str ("Autenticación fallida para "
              ++ jsOrStr (data.bind (·.name)) ctx.serverName))],
            success := some false },
         Effect.close wsId]) ∧
    ∀ n : String, n ∉ regKeys reg →
      n ∉ regKeys (handleServerConnect env wsId data ctx reg).2.1 := by
  have heq : handleServerConnect env wsId data ctx reg =
      (ctx, reg,
        [Effect.send wsId
          { type := JsVal.str "SERVER_CONNECT_RESULT",
            dataFields := [("message", JsVal.str ("Autenticación fallida para "
              ++ jsOrStr (data.bind (·.name)) ctx.serverName))],
            success := some false },
         Effect.close wsId]) := by
    unfold handleServerConnect
    simp [hv]
  refine ⟨heq, fun n hn => ?_⟩
  rw [heq]
  exact hn

/-- C5 witness: a concrete rejected registration attempt. -/
theorem C5_auth_failure_witness :
    handleServerConnect (some "secret") 7
        (some { name := some "Zone1", token := some "wrong" }) initContext [] =
      (initContext, [],
        [Effect.send 7
          { type := JsVal.str "SERVER_CONNECT_RESULT",
            dataFields := [("message", JsVal.str ("Autenticación fallida para "
              ++ jsOrStr ((some { name := some "Zone1", token := some "wrong" } : Option InData).bind (·.name))
                   initContext.serverName))],
            success := some false },
         Effect.close 7]) ∧
    ∀ n : String, n ∉ regKeys ([] : Registry) →
      n ∉ regKeys (handleServerConnect (some "secret") 7
        (some { name := some "Zone1", token := some "wrong" }) initContext []).2.1 :=
  C5_auth_failure (some "secret") 7
    (some { name := some "Zone1", token := some "wrong" }) initContext [] (by decide)

/-- C7 counterexample: for a concrete successful registration the reply
envelope carries `success` at its top level and the `data` object holds only
`message` and `server_id` — looking `success` up inside `data` finds
nothing, contrary to the claim that `success` is inside `data`. -/
theorem C7_success_outside_data :
    (handleServerConnect (some "s") 1
        (some { name := some "Zone1", token := some "s" }) initContext []).2.2
      = [Effect.send 1
          { type := JsVal.str "SERVER_CONNECT_RESULT",
            dataFields := [("message", JsVal.str "Servidor Zone1 registrado correctamente"),
                           ("server_id", JsVal.str "Zone1")],
            success := some true }] ∧
    List.lookup "success"
        [("message", JsVal.str "Servidor Zone1 registrado correctamente"),
         ("server_id", JsVal.str "Zone1")] = none := by
  decide

/-- C7 amended: the reply to a successful `SERVER_CONNECT` with name N is a
`SERVER_CONNECT_RESULT` envelope whose `data` carries a message string and
`server_id` equal to N, while `success:true` sits at the top level of the
envelope, outside the `data` object. -/
theorem C7_success_reply_frame (env : Option String) (wsId : Nat)
    (name token : String) (ctx : Context) (reg : Registry)
    (hv : isValidToken (some token) env = true) (hn : name ≠ "") :
    (handleServerConnect env wsId (some { name := some name, token := some token }) ctx reg).2.2
      = [Effect.send wsId
          { type := JsVal.str "SERVER_CONNECT_RESULT",
            dataFields := [("message", JsVal.str ("Servidor " ++ name ++ " registrado correctamente")),
                           ("server_id", JsVal.str name)],
            success := some true }] := by
  unfold handleServerConnect
  simp only [Option.some_bind, hv, not_true_eq_false, if_false, jsOrStr, if_neg hn]

/-- C7 witness: the concrete success reply for Zone1. -/
theorem C7_success_reply_frame_witness :
    (handleServerConnect (some "s") 2
        (some { name := some "Zone1", token := some "s" }) initContext []).2.2
      = [Effect.send 2
          { type := JsVal.str "SERVER_CONNECT_RESULT",
            dataFields := [("message", JsVal.str ("Servidor " ++ "Zone1" ++ " registrado correctamente")),
                           ("server_id", JsVal.str "Zone1")],
            success := some true }] :=
  C7_success_reply_frame (some "s") 2 "Zone1" "s" initContext [] (by decide) (by decide)

/-- C8 counterexample: an authenticated session asking for a registered
Zone1 receives a frame whose `type` is the string `CLIENT_CONNECT` — the
protocol has no `CLIENT_CONNECT_RESULT` kind — and whose only content is
`data.token`; the frame carries no `success` field at all. -/
theorem C8_reply_kind_counterexample :
    onMessage none 5 { type := JsVal.num 2, data := some { serverName := some "Zone1" } }
        { serverName := "Gate", authenticated := true } [("Zone1", 7)]
      = ({ serverName := "Gate", authenticated := true }, [("Zone1", 7)],
         [Effect.send 5
            { type := JsVal.str "CLIENT_CONNECT",
              dataFields := [("token", JsVal.str "token")],
              success := none }]) := by
  decide

/-- C8 amended: on an authenticated session a frame of numeric type 2
replies with one envelope of type `CLIENT_CONNECT` (not
`CLIENT_CONNECT_RESULT`), whose `data` is `token` on a registry hit and a
message on a miss; no `success` field is sent, the context and registry are
untouched and the connection is not closed. -/
theorem C8_client_connect_reply (env : Option String) (wsId : Nat)
    (d : Option InData) (ctx : Context) (reg : Registry)
    (h : ctx.authenticated = true) :
    onMessage env wsId { type := JsVal.num 2, data := d } ctx reg
      = (ctx, reg,
         [Effect.send wsId
            { type := JsVal.str "CLIENT_CONNECT",
              dataFields :=
                if (regGetOpt reg (d.bind (·.serverName))).isSome
                then [("token", JsVal.str "token")]
                else [("message", JsVal.str ("Servidor "
                  ++ optStrToJs (d.bind (·.serverName)) ++ " no encontrado"))],
              success := none }]) ∧
    Effect.close wsId ∉ (onMessage env wsId { type := JsVal.num 2, data := d } ctx reg).2.2 := by
  have hdt : dispatchTarget (JsVal.num 2) = DispatchTarget.clientConnect := by decide
  have heq : onMessage env wsId { type := JsVal.num 2, data := d } ctx reg
      = (ctx, reg, handleClientConnect wsId d reg) := by
    unfold onMessage
    rw [hdt]
    simp [h]
  rw [heq]
  unfold handleClientConnect
  exact ⟨rfl, by simp⟩

/-- C8 witness: a concrete authenticated query for an unregistered name. -/
theorem C8_client_connect_reply_witness :
    onMessage none 5 { type := JsVal.num 2, data := some { serverName := some "Nope" } }
        { serverName := "Gate2", authenticated := true } []
      = ({ serverName := "Gate2", authenticated := true }, [],
         [Effect.send 5
            { type := JsVal.str "CLIENT_CONNECT",
              dataFields :=
                if (regGetOpt []
                     ((some { serverName := some "Nope" } : Option InData).bind (·.serverName))).isSome
                then [("token", JsVal.str "token")]
                else [("message", JsVal.str ("Servidor "
                  ++ optStrToJs ((some { serverName := some "Nope" } : Option InData).bind (·.serverName))
                  ++ " no encontrado"))],
              success := none }]) ∧
    Effect.close 5 ∉ (onMessage none 5
        { type := JsVal.num 2, data := some { serverName := some "Nope" } }
        { serverName := "Gate2", authenticated := true } []).2.2 :=
  C8_client_connect_reply none 5 (some { serverName := some "Nope" })
    { serverName := "Gate2", authenticated := true } [] (by decide)

/-- C10: a session that never authenticated still holds the default context
name `UnknownServer`, so its close runs an unconditional delete of that key:
the registry is unchanged if and only if no server is registered under the
literal name `UnknownServer`, and a server that is registered under that
name is deregistered by the unrelated close. -/
theorem C10_unauth_close_deletes_unknownserver (env : Option String) (wsId : Nat)
    (frames : List InFrame) (reg0 reg : Registry)
    (h : (runSession env wsId frames initContext reg0).1.authenticated = false) :
    (runSession env wsId frames initContext reg0).1.serverName = "UnknownServer" ∧
    (onClose (runSession env wsId frames initContext reg0).1 reg = reg ↔
        "UnknownServer" ∉ regKeys reg) ∧
    ("UnknownServer" ∈ regKeys reg →
        "UnknownServer" ∉ regKeys (onClose (runSession env wsId frames initContext reg0).1 reg)) := by
  have hctx := runSession_unauth_context env wsId frames initContext reg0 h
  rw [hctx]
  refine ⟨rfl, regDelete_eq_self_iff reg "UnknownServer", fun hmem hmem' => ?_⟩
  rcases (mem_regKeys_regDelete reg "UnknownServer" "UnknownServer").mp hmem' with ⟨_, hne⟩
  exact hne rfl

/-- C10 witness: a session whose one registration attempt was rejected
closes while an unrelated server is registered as `UnknownServer`. -/
theorem C10_unauth_close_witness :
    (runSession (some "s") 3
        [{ type := JsVal.num 1, data := some { name := some "Zone1", token := some "bad" } }]
        initContext []).1.serverName = "UnknownServer" ∧
    (onClose (runSession (some "s") 3
        [{ type := JsVal.num 1, data := some { name := some "Zone1", token := some "bad" } }]
        initContext []).1 [("UnknownServer", 9)] = [("UnknownServer", 9)] ↔
        "UnknownServer" ∉ regKeys [("UnknownServer", 9)]) ∧
    ("UnknownServer" ∈ regKeys [("UnknownServer", 9)] →
        "UnknownServer" ∉ regKeys (onClose (runSession (some "s") 3
          [{ type := JsVal.num 1, data := some { name := some "Zone1", token := some "bad" } }]
          initContext []).1 [("UnknownServer", 9)])) :=
  C10_unauth_close_deletes_unknownserver (some "s") 3
    [{ type := JsVal.num 1, data := some { name := some "Zone1", token := some "bad" } }]
    [] [("UnknownServer", 9)] (by decide)

end Hub
